import Mathlib

/-!
Verification of the Supabase edge functions of this repository (events,
stages, artists, lineups, set-times, group-schedules) against their
natural-language specification.

The handlers are shallowly embedded: each Deno request handler becomes a
pure Lean function from its authenticated identity, parsed inputs,
injected store-call outcomes and a relational store to a typed response
plus the resulting store.  The persistence store (Supabase/PostgREST) is
modelled as lists of rows per table; a query that the real store could
fail is given an explicit `Option DbErr` parameter (`none` = the call
succeeds and is answered from the store, `some e` = the call fails with
error `e`), mirroring the `{ data, error }` results in the source.
-/

/-! ## JavaScript string primitives

`String.prototype.split`, `String.prototype.includes`, whitespace
trimming and the `isNaN(Number(s))` test used by the ID extractors. -/

/-- `splitChar c l` is JavaScript `String.prototype.split` on a
one-character separator, over the character list of the string. -/
def splitChar (c : Char) : List Char → List (List Char)
  | [] => [[]]
  | x :: xs =>
    let r := splitChar c xs
    if x = c then [] :: r
    else
      match r with
      | h :: t => (x :: h) :: t
      | [] => [[x]]

/-- `url.pathname.split('/')` from the source, as a list of segments. -/
def pathParts (s : String) : List String :=
  (splitChar '/' s.data).map String.mk

/-- Whether `pat` is a prefix of `l` (helper for substring search). -/
def listIsPrefixOf : List Char → List Char → Bool
  | [], _ => true
  | _ :: _, [] => false
  | a :: as, b :: bs => a = b && listIsPrefixOf as bs

/-- Whether `pat` occurs as a contiguous substring of `l`. -/
def listContainsSub (pat : List Char) : List Char → Bool
  | [] => pat.isEmpty
  | c :: cs => listIsPrefixOf pat (c :: cs) || listContainsSub pat cs

/-- JavaScript `s.includes(pat)`. -/
def containsSubstr (s pat : String) : Bool :=
  listContainsSub pat.data s.data

/-- Trim leading and trailing whitespace, as `Number()` does before
parsing its argument. -/
def jsTrim (l : List Char) : List Char :=
  ((l.dropWhile Char.isWhitespace).reverse.dropWhile Char.isWhitespace).reverse

/-- A non-empty list of decimal digits. -/
def isDigits (l : List Char) : Bool :=
  !l.isEmpty && l.all Char.isDigit

/-- Strip a single leading sign character. -/
def stripSign : List Char → List Char
  | '+' :: rest => rest
  | '-' :: rest => rest
  | l => l

/-- Exponent part of a JavaScript numeric literal: optional sign, then
decimal digits. -/
def isExponentPart (l : List Char) : Bool :=
  isDigits (stripSign l)

/-- Mantissa of a decimal literal: `digits`, `digits.digits`,
`digits.` or `.digits`. -/
def isMantissa (l : List Char) : Bool :=
  match splitChar '.' l with
  | [a] => isDigits a
  | [a, b] => (!a.isEmpty || !b.isEmpty) && a.all Char.isDigit && b.all Char.isDigit
  | _ => false

/-- An unsigned decimal literal with an optional exponent (input is
already lower-cased). -/
def isDecimalNumeric (l : List Char) : Bool :=
  match splitChar 'e' l with
  | [m] => isMantissa m
  | [m, ex] => isMantissa m && isExponentPart ex
  | _ => false

/-- Whether the trimmed, non-empty character list is recognised as a
number by JavaScript `Number()` (decimal with optional sign and
exponent, hex `0x`, octal `0o`, binary `0b`, or `Infinity`). -/
def jsStringNumeric (t : List Char) : Bool :=
  if t = "Infinity".data || t = "+Infinity".data || t = "-Infinity".data then true
  else
    let lower := t.map Char.toLower
    match lower with
    | '0' :: 'x' :: rest => !rest.isEmpty && rest.all (fun c => c.isDigit || ('a' ≤ c && c ≤ 'f'))
    | '0' :: 'o' :: rest => !rest.isEmpty && rest.all (fun c => '0' ≤ c && c ≤ '7')
    | '0' :: 'b' :: rest => !rest.isEmpty && rest.all (fun c => c = '0' || c = '1')
    | _ => isDecimalNumeric (stripSign lower)

/-- JavaScript `isNaN(Number(s))`: the whitespace-trimmed empty string
converts to `0` (not NaN); otherwise `Number` yields NaN exactly when
the trimmed string is not a numeric literal. -/
def jsNumberIsNaN (s : String) : Bool :=
  let t := jsTrim s.data
  if t.isEmpty then false else !jsStringNumeric t

/-! ## Resource Locator: ID extraction from request paths

Each extractor scans consecutive segment pairs of the split path,
exactly as the `for` loops in the source do.  The group-schedule and
artist extractors additionally require the candidate segment to be
non-empty and to pass `!isNaN(Number(id))`; the set-time, lineup-entry
and collaboration extractors return the following segment
unconditionally. -/

/-- `getGroupIdFromUrl` (group-schedules/index.ts), over split segments:
a segment following `group-schedules` is returned only when it is
non-empty and numeric. -/
def getGroupIdFromParts : List String → Option String
  | p :: q :: rest =>
    if p = "group-schedules" ∧ q ≠ "" ∧ jsNumberIsNaN q = false then some q
    else getGroupIdFromParts (q :: rest)
  | _ => none

/-- `getGroupIdFromUrl` on a raw path. -/
def getGroupIdFromUrl (path : String) : Option String :=
  getGroupIdFromParts (pathParts path)

/-- `getArtistIdFromUrl` (artists function): same shape as the
group-schedule extractor, keyed on `artists`. -/
def getArtistIdFromParts : List String → Option String
  | p :: q :: rest =>
    if p = "artists" ∧ q ≠ "" ∧ jsNumberIsNaN q = false then some q
    else getArtistIdFromParts (q :: rest)
  | _ => none

/-- `getArtistIdFromUrl` on a raw path. -/
def getArtistIdFromUrl (path : String) : Option String :=
  getArtistIdFromParts (pathParts path)

/-- `getSetTimeIdFromUrl` (set-times/index.ts): the segment after
`set_times` or `set-times` is returned with no numeric check. -/
def getSetTimeIdFromParts : List String → Option String
  | p :: q :: rest =>
    if p = "set_times" ∨ p = "set-times" then some q
    else getSetTimeIdFromParts (q :: rest)
  | _ => none

/-- `getSetTimeIdFromUrl` on a raw path. -/
def getSetTimeIdFromUrl (path : String) : Option String :=
  getSetTimeIdFromParts (pathParts path)

/-- `getLineupEntryIdFromUrl` (lineups function): the segment after
`lineups` is returned with no numeric check. -/
def getLineupEntryIdFromParts : List String → Option String
  | p :: q :: rest =>
    if p = "lineups" then some q
    else getLineupEntryIdFromParts (q :: rest)
  | _ => none

/-- `getLineupEntryIdFromUrl` on a raw path. -/
def getLineupEntryIdFromUrl (path : String) : Option String :=
  getLineupEntryIdFromParts (pathParts path)

/-- `getCollaborationIdFromUrl` (set-times/index.ts): the segment after
`artist_collaborations` is returned with no numeric check. -/
def getCollaborationIdFromParts : List String → Option String
  | p :: q :: rest =>
    if p = "artist_collaborations" then some q
    else getCollaborationIdFromParts (q :: rest)
  | _ => none

/-- `getCollaborationIdFromUrl` on a raw path. -/
def getCollaborationIdFromUrl (path : String) : Option String :=
  getCollaborationIdFromParts (pathParts path)

/-! ## Data model

One relational store with a list of rows per table, shared by all the
edge functions (they all talk to the same database). -/

/-- A store-call failure as surfaced by the query interface:
`{ message, code }` of a PostgREST error. -/
structure DbErr where
  message : String
  code : String
deriving DecidableEq, Repr

/-- `events` row. -/
structure EventRow where
  id : Nat
  name : String
  date_start : String
  date_end : String
  venue : Option String
  city : Option String
  country : Option String
  featured : Option Bool
  details : Option String
  image_url : Option String
  created_by : Option String
deriving DecidableEq, Repr

/-- `stages` row. -/
structure StageRow where
  id : Nat
  event_id : Nat
  name : String
deriving DecidableEq, Repr

/-- `artists` row (metadata fields kept to the ones the handlers touch). -/
structure Artist where
  id : Nat
  name : String
  spotify_id : Option String
  followers : Option Nat
  popularity : Option Nat
  image_url : Option String
deriving DecidableEq, Repr

/-- `lineups` row: links one event to one artist. -/
structure LineupRow where
  id : Nat
  event_id : Nat
  artist_id : Nat
  is_headliner : Option Bool
  tier : Option Nat
  announcement_date : Option String
deriving DecidableEq, Repr

/-- `set_times` row. -/
structure SetTimeRow where
  id : Nat
  artist_id : Nat
  stage_id : Nat
  start_time : String
  end_time : String
  notes : Option String
deriving DecidableEq, Repr

/-- `artist_collaborations` row. -/
structure CollabRow where
  id : Nat
  set_time_id : Nat
  artist_id : Nat
deriving DecidableEq, Repr

/-- Membership status of a group member. -/
inductive MemberStatus
  | invited
  | accepted
  | declined
deriving DecidableEq, Repr

/-- `group_schedules` row. -/
structure GroupSchedule where
  id : Nat
  name : String
  event_id : Nat
  created_by : String
deriving DecidableEq, Repr

/-- `group_members` row. -/
structure GroupMember where
  id : Nat
  group_id : Nat
  user_id : String
  is_admin : Bool
  status : MemberStatus
deriving DecidableEq, Repr

/-- The relational store: one list of rows per table.  `user_events`
holds `(user_id, event_id)` pairs. -/
structure Db where
  events : List EventRow
  stages : List StageRow
  artists : List Artist
  lineups : List LineupRow
  set_times : List SetTimeRow
  artist_collaborations : List CollabRow
  group_schedules : List GroupSchedule
  group_members : List GroupMember
  user_events : List (String × Nat)
deriving DecidableEq, Repr

/-- `verifyApiKey`: the request is administrative exactly when the
`x-api-key` header is present, the secret is configured, and the two
are equal (in JavaScript `null === undefined` is `false`, so a missing
header never matches a missing secret). -/
def verifyApiKey (apiKeyHeader apiKeyConfig : Option String) : Bool :=
  match apiKeyHeader, apiKeyConfig with
  | some h, some k => h == k
  | _, _ => false

/-- `error.message && error.message.includes("row-level security")`. -/
def mentionsRls (e : DbErr) : Bool :=
  containsSubstr e.message "row-level security"

/-- The pagination object included in list responses. -/
structure Pagination where
  page : Nat
  pageSize : Nat
  totalCount : Nat
  totalPages : Nat
deriving DecidableEq, Repr

/-- `Math.ceil(a / b)` for natural `a` and positive `b`. -/
def jsMathCeil (a b : Nat) : Nat :=
  (a + b - 1) / b

/-! ## Group-schedule handlers (group-schedules/index.ts)

The permission probes the handlers run against the store. -/

/-- The creator probe: `group_schedules` row with this id created by
this user (`.maybeSingle()`). -/
def creatorCheck (u : String) (gid : Nat) (db : Db) : Bool :=
  (db.group_schedules.find? (fun g => g.id == gid && g.created_by == u)).isSome

/-- The membership probe: any `group_members` row for this group and
user. -/
def membershipCheck (u : String) (gid : Nat) (db : Db) : Bool :=
  (db.group_members.find? (fun m => m.group_id == gid && m.user_id == u)).isSome

/-- The admin probe: a `group_members` row for this group and user with
`is_admin = true`. -/
def adminCheck (u : String) (gid : Nat) (db : Db) : Bool :=
  (db.group_members.find? (fun m => m.group_id == gid && m.user_id == u && m.is_admin)).isSome

/-- Outcome of `handleCreateGroupSchedule`. -/
inductive GSCreateResult
  | unauthorized
  | badRequest (msg : String)
  | rlsGroups (details : String)
  | rlsMembers (details : String)
  | serverError (msg : String)
  | created (group : GroupSchedule)
deriving DecidableEq, Repr

/-- HTTP status of each `handleCreateGroupSchedule` outcome. -/
def GSCreateResult.status : GSCreateResult → Nat
  | .unauthorized => 401
  | .badRequest _ => 400
  | .rlsGroups _ => 403
  | .rlsMembers _ => 403
  | .serverError _ => 500
  | .created _ => 201

/-- `handleCreateGroupSchedule`: validate, insert the group, insert the
creator as accepted admin member, and on a member-insert failure delete
the just-created group before surfacing the error (403 when the failure
message mentions row-level security, 500 otherwise).  `newGroupId` and
`newMemberId` are the ids the store assigns to the inserted rows;
`groupInsertErr` / `memberInsertErr` inject failures of the two
inserts. -/
def handleCreateGroupSchedule (user : Option String) (name : String) (event_id : Nat)
    (newGroupId newMemberId : Nat) (groupInsertErr memberInsertErr : Option DbErr)
    (db : Db) : GSCreateResult × Db :=
  match user with
  | none => (.unauthorized, db)
  | some u =>
    if name = "" then (.badRequest "Missing required field: name", db)
    else if event_id = 0 then (.badRequest "Missing required field: event_id", db)
    else
      match groupInsertErr with
      | some e =>
        if mentionsRls e then (.rlsGroups e.message, db) else (.serverError e.message, db)
      | none =>
        let g : GroupSchedule := ⟨newGroupId, name, event_id, u⟩
        let db1 : Db := { db with group_schedules := db.group_schedules ++ [g] }
        match memberInsertErr with
        | some e =>
          let db2 : Db :=
            { db1 with group_schedules := db1.group_schedules.filter (fun x => x.id ≠ g.id) }
          if mentionsRls e then (.rlsMembers e.message, db2) else (.serverError e.message, db2)
        | none =>
          let m : GroupMember := ⟨newMemberId, g.id, u, true, .accepted⟩
          (.created g, { db1 with group_members := db1.group_members ++ [m] })

/-- Outcome of `handleGetGroupSchedule`. -/
inductive GSGetResult
  | unauthorized
  | badRequest (msg : String)
  | notFound (msg : String)
  | serverError (msg : String)
  | ok (group : GroupSchedule) (members : List GroupMember)
deriving DecidableEq, Repr

/-- HTTP status of each `handleGetGroupSchedule` outcome. -/
def GSGetResult.status : GSGetResult → Nat
  | .unauthorized => 401
  | .badRequest _ => 400
  | .notFound _ => 404
  | .serverError _ => 500
  | .ok _ _ => 200

/-- The post-authorization tail of `handleGetGroupSchedule`: fetch the
group row (`.single()`, a server error if it is gone) and its members. -/
def fetchGroupWithMembers (gid : Nat) (fetchErr membersErr : Option DbErr)
    (db : Db) : GSGetResult :=
  match fetchErr with
  | some e => .serverError e.message
  | none =>
    match db.group_schedules.find? (fun g => g.id == gid) with
    | none => .serverError "JSON object requested, multiple (or no) rows returned"
    | some g =>
      match membersErr with
      | some e => .serverError e.message
      | none => .ok g (db.group_members.filter (fun m => m.group_id == gid))

/-- `handleGetGroupSchedule`: a caller who is neither the creator nor a
member gets the not-found response; only then is the group fetched. -/
def handleGetGroupSchedule (user : Option String) (groupId : Option Nat)
    (creatorErr memberErr fetchErr membersErr : Option DbErr) (db : Db) : GSGetResult :=
  match user with
  | none => .unauthorized
  | some u =>
    match groupId with
    | none => .badRequest "Missing group ID"
    | some gid =>
      match creatorErr with
      | some e => .serverError e.message
      | none =>
        if creatorCheck u gid db then fetchGroupWithMembers gid fetchErr membersErr db
        else
          match memberErr with
          | some e => .serverError e.message
          | none =>
            if membershipCheck u gid db then fetchGroupWithMembers gid fetchErr membersErr db
            else .notFound "Group schedule not found or you don\x27t have access"

/-- Caller-supplied update payload for a group schedule
(`Partial<GroupSchedule>`). -/
structure GSUpdatePayload where
  id : Option Nat
  name : Option String
  event_id : Option Nat
  created_by : Option String
deriving DecidableEq, Repr

/-- The handler deletes `id` and `created_by` from the payload when they
are truthy (`if (updates.id) delete updates.id`, and likewise for
`created_by`), so a falsy `0` or empty string survives the strip. -/
def stripGSPayload (p : GSUpdatePayload) : GSUpdatePayload :=
  { p with
    id := match p.id with
      | some i => if i = 0 then some 0 else none
      | none => none
    created_by := match p.created_by with
      | some c => if c = "" then some "" else none
      | none => none }

/-- Apply the surviving update fields to a row. -/
def applyGSUpdates (p : GSUpdatePayload) (g : GroupSchedule) : GroupSchedule :=
  { g with
    id := p.id.getD g.id
    name := p.name.getD g.name
    event_id := p.event_id.getD g.event_id
    created_by := p.created_by.getD g.created_by }

/-- Outcome of `handleUpdateGroupSchedule`. -/
inductive GSUpdateResult
  | unauthorized
  | badRequest (msg : String)
  | serverError (msg : String)
  | ok (group : GroupSchedule)
deriving DecidableEq, Repr

/-- HTTP status of each `handleUpdateGroupSchedule` outcome. -/
def GSUpdateResult.status : GSUpdateResult → Nat
  | .unauthorized => 401
  | .badRequest _ => 400
  | .serverError _ => 500
  | .ok _ => 200

/-- The update write shared by both authorization branches of
`handleUpdateGroupSchedule`: update every `group_schedules` row whose id
matches, then `.select().single()` the result (a server error when no
row matched). -/
def runGSUpdate (gid : Nat) (upd : GSUpdatePayload) (updErr : Option DbErr)
    (db : Db) : GSUpdateResult × Db :=
  match updErr with
  | some e => (.serverError e.message, db)
  | none =>
    match db.group_schedules.find? (fun g => g.id == gid) with
    | none => (.serverError "JSON object requested, multiple (or no) rows returned", db)
    | some g0 =>
      (.ok (applyGSUpdates upd g0),
       { db with group_schedules :=
           db.group_schedules.map (fun g => if g.id == gid then applyGSUpdates upd g else g) })

/-- `handleUpdateGroupSchedule`: the write requires the caller to be the
creator, or failing that an admin member; otherwise the unauthorized
response is returned and the store is untouched. -/
def handleUpdateGroupSchedule (user : Option String) (groupId : Option Nat)
    (payload : GSUpdatePayload) (permErr adminErr updErr : Option DbErr)
    (db : Db) : GSUpdateResult × Db :=
  match user with
  | none => (.unauthorized, db)
  | some u =>
    match groupId with
    | none => (.badRequest "Missing group ID", db)
    | some gid =>
      let upd := stripGSPayload payload
      match permErr with
      | some e => (.serverError e.message, db)
      | none =>
        if creatorCheck u gid db then runGSUpdate gid upd updErr db
        else
          match adminErr with
          | some e => (.serverError e.message, db)
          | none =>
            if adminCheck u gid db then runGSUpdate gid upd updErr db
            else (.unauthorized, db)

/-- Outcome of `handleDeleteGroupSchedule`. -/
inductive GSDeleteResult
  | unauthorized
  | badRequest (msg : String)
  | serverError (msg : String)
  | ok
deriving DecidableEq, Repr

/-- HTTP status of each `handleDeleteGroupSchedule` outcome. -/
def GSDeleteResult.status : GSDeleteResult → Nat
  | .unauthorized => 401
  | .badRequest _ => 400
  | .serverError _ => 500
  | .ok => 200

/-- `handleDeleteGroupSchedule`: deletion is gated on creatorship alone;
an admin member who is not the creator receives the unauthorized
response and no row is removed. -/
def handleDeleteGroupSchedule (user : Option String) (groupId : Option Nat)
    (permErr delErr : Option DbErr) (db : Db) : GSDeleteResult × Db :=
  match user with
  | none => (.unauthorized, db)
  | some u =>
    match groupId with
    | none => (.badRequest "Missing group ID", db)
    | some gid =>
      match permErr with
      | some e => (.serverError e.message, db)
      | none =>
        if creatorCheck u gid db then
          match delErr with
          | some e => (.serverError e.message, db)
          | none =>
            (.ok, { db with group_schedules := db.group_schedules.filter (fun g => g.id ≠ gid) })
        else (.unauthorized, db)

/-- One step of `new Map(allGroups.map(group => [group.id, group]))`:
a key already present keeps its position but takes the new value, a new
key is appended. -/
def jsMapDedupUpsert (acc : List GroupSchedule) (g : GroupSchedule) : List GroupSchedule :=
  if acc.any (fun x => x.id == g.id) then acc.map (fun x => if x.id == g.id then g else x)
  else acc ++ [g]

/-- `Array.from(new Map(l.map(group => [group.id, group])).values())`:
deduplicate by group id, first-occurrence order, last value wins. -/
def jsMapDedup (l : List GroupSchedule) : List GroupSchedule :=
  l.foldl jsMapDedupUpsert []

/-- The result-set pipeline of `handleListGroupSchedules`: groups created
by the user, plus the (non-null) groups of the user's memberships,
deduplicated by id, then filtered by the optional `event_id` parameter. -/
def gsListPipeline (u : String) (eventId : Option Nat) (db : Db) : List GroupSchedule :=
  let createdGroups := db.group_schedules.filter (fun g => g.created_by == u)
  let memberGroups := (db.group_members.filter (fun m => m.user_id == u)).filterMap
    (fun m => db.group_schedules.find? (fun g => g.id == m.group_id))
  let uniqueGroups := jsMapDedup (createdGroups ++ memberGroups)
  match eventId with
  | some eid => uniqueGroups.filter (fun g => g.event_id == eid)
  | none => uniqueGroups

/-- Outcome of `handleListGroupSchedules`. -/
inductive GSListResult
  | unauthorized
  | serverError (msg : String)
  | ok (group_schedules : List GroupSchedule) (pagination : Pagination)
deriving DecidableEq, Repr

/-- HTTP status of each `handleListGroupSchedules` outcome. -/
def GSListResult.status : GSListResult → Nat
  | .unauthorized => 401
  | .serverError _ => 500
  | .ok _ _ => 200

/-- `handleListGroupSchedules`: build the deduplicated, filtered result
set, then apply `slice(startRange, endRange + 1)` pagination and report
`totalPages = Math.ceil(totalCount / pageSize)`. -/
def handleListGroupSchedules (user : Option String) (eventId : Option Nat)
    (page pageSize : Nat) (createdErr memberErr : Option DbErr) (db : Db) : GSListResult :=
  match user with
  | none => .unauthorized
  | some u =>
    let startRange := (page - 1) * pageSize
    let endRange := page * pageSize - 1
    match createdErr with
    | some e => .serverError e.message
    | none =>
      match memberErr with
      | some e => .serverError e.message
      | none =>
        let filteredGroups := gsListPipeline u eventId db
        let totalCount := filteredGroups.length
        let paginatedGroups := (filteredGroups.drop startRange).take (endRange + 1 - startRange)
        .ok paginatedGroups ⟨page, pageSize, totalCount, jsMathCeil totalCount pageSize⟩

/-- The group ids carried by a list response (empty for error
responses). -/
def GSListResult.groupIds : GSListResult → List Nat
  | .ok gs _ => gs.map (fun g => g.id)
  | _ => []

/-! ## Artist handlers (artists function) -/

/-- Case-insensitive containment, modelling `ilike('name', a percent-
wrapped pattern)` with the search term in the middle. -/
def ilikeContains (name pat : String) : Bool :=
  listContainsSub (pat.data.map Char.toLower) (name.data.map Char.toLower)

/-- The search filter applied to both the data query and the count
query of `handleListArtists` (`if (search)` treats an absent or empty
parameter as no filter). -/
def artistSearchFilter (search : Option String) (l : List Artist) : List Artist :=
  match search with
  | some s => if s = "" then l else l.filter (fun a => ilikeContains a.name s)
  | none => l

/-- Insert an artist into a list sorted by name (helper for
`.order('name')`). -/
def insertByName (a : Artist) : List Artist → List Artist
  | [] => [a]
  | b :: bs => if a.name ≤ b.name then a :: b :: bs else b :: insertByName a bs

/-- `.order('name')`: sort the result set by artist name. -/
def sortByName : List Artist → List Artist
  | [] => []
  | a :: as => insertByName a (sortByName as)

/-- Outcome of `handleListArtists`. -/
inductive ArtistsListResult
  | unauthorized
  | serverError (msg : String)
  | ok (artists : List Artist) (pagination : Pagination)
deriving DecidableEq, Repr

/-- HTTP status of each `handleListArtists` outcome. -/
def ArtistsListResult.status : ArtistsListResult → Nat
  | .unauthorized => 401
  | .serverError _ => 500
  | .ok _ _ => 200

/-- `handleListArtists`: the count query and the data query share the
same search filter; the data query is ordered by name and asked for the
zero-based inclusive range `[(page-1)*pageSize, page*pageSize - 1]`;
`totalPages` is `Math.ceil(totalCount / pageSize)` with `0` for an
empty result set (`totalCount ? ... : 0`). -/
def handleListArtists (user : Option String) (search : Option String)
    (page pageSize : Nat) (countErr dataErr : Option DbErr) (db : Db) : ArtistsListResult :=
  match user with
  | none => .unauthorized
  | some _ =>
    let startRange := (page - 1) * pageSize
    let endRange := page * pageSize - 1
    let filtered := artistSearchFilter search db.artists
    match countErr with
    | some e => .serverError e.message
    | none =>
      let totalCount := filtered.length
      match dataErr with
      | some e => .serverError e.message
      | none =>
        let pageRows := ((sortByName filtered).drop startRange).take (endRange + 1 - startRange)
        .ok pageRows
          ⟨page, pageSize, totalCount,
           if totalCount = 0 then 0 else jsMathCeil totalCount pageSize⟩

/-- Outcome of `handleDeleteArtist`.  The three conflict outcomes carry
the `dependencies` object of the 409 response (`{ lineups: n }`,
`{ set_times: n }` or `{ collaborations: n }`). -/
inductive ArtistDeleteResult
  | unauthorized
  | badRequest (msg : String)
  | notFound (msg : String)
  | serverError (msg : String)
  | conflictLineups (count : Nat)
  | conflictSetTimes (count : Nat)
  | conflictCollabs (count : Nat)
  | ok
deriving DecidableEq, Repr

/-- HTTP status of each `handleDeleteArtist` outcome. -/
def ArtistDeleteResult.status : ArtistDeleteResult → Nat
  | .unauthorized => 401
  | .badRequest _ => 400
  | .notFound _ => 404
  | .serverError _ => 500
  | .conflictLineups _ => 409
  | .conflictSetTimes _ => 409
  | .conflictCollabs _ => 409
  | .ok => 200

/-- Count of `lineups` rows referencing an artist. -/
def lineupCountOf (aid : Nat) (db : Db) : Nat :=
  (db.lineups.filter (fun r => r.artist_id == aid)).length

/-- Count of `set_times` rows referencing an artist. -/
def setTimeCountOf (aid : Nat) (db : Db) : Nat :=
  (db.set_times.filter (fun r => r.artist_id == aid)).length

/-- Count of `artist_collaborations` rows referencing an artist. -/
def collabCountOf (aid : Nat) (db : Db) : Nat :=
  (db.artist_collaborations.filter (fun r => r.artist_id == aid)).length

/-- `handleDeleteArtist`: API-key gated; checks the three dependency
counts serially and refuses with a 409 conflict carrying the first
non-zero count; deletes the artist row only when all three are zero. -/
def handleDeleteArtist (apiKeyHeader apiKeyConfig : Option String) (artistId : Option Nat)
    (checkErr lineupErr setTimeErr collabErr delErr : Option DbErr)
    (db : Db) : ArtistDeleteResult × Db :=
  if !verifyApiKey apiKeyHeader apiKeyConfig then (.unauthorized, db)
  else
    match artistId with
    | none => (.badRequest "Missing artist ID", db)
    | some aid =>
      match checkErr with
      | some e => (.serverError e.message, db)
      | none =>
        if !db.artists.any (fun a => a.id == aid) then (.notFound "Artist not found", db)
        else
          match lineupErr with
          | some e => (.serverError e.message, db)
          | none =>
            if lineupCountOf aid db > 0 then (.conflictLineups (lineupCountOf aid db), db)
            else
              match setTimeErr with
              | some e => (.serverError e.message, db)
              | none =>
                if setTimeCountOf aid db > 0 then (.conflictSetTimes (setTimeCountOf aid db), db)
                else
                  match collabErr with
                  | some e => (.serverError e.message, db)
                  | none =>
                    if collabCountOf aid db > 0 then
                      (.conflictCollabs (collabCountOf aid db), db)
                    else
                      match delErr with
                      | some e => (.serverError e.message, db)
                      | none =>
                        (.ok, { db with artists := db.artists.filter (fun a => a.id ≠ aid) })

/-! ## Lineup handlers (lineups function) -/

/-- Outcome of `handleAddLineupEntry`. -/
inductive LineupAddResult
  | unauthorized
  | badRequest (msg : String)
  | notFound (msg : String)
  | conflict (msg : String)
  | serverError (msg : String)
  | ok (entry : LineupRow)
deriving DecidableEq, Repr

/-- HTTP status of each `handleAddLineupEntry` outcome. -/
def LineupAddResult.status : LineupAddResult → Nat
  | .unauthorized => 401
  | .badRequest _ => 400
  | .notFound _ => 404
  | .conflict _ => 409
  | .serverError _ => 500
  | .ok _ => 200

/-- The store-side insert into `lineups`: the unique constraint on
`(event_id, artist_id)` rejects a duplicate pair with error code
`23505` and leaves the table unchanged. -/
def lineupInsert (row : LineupRow) (db : Db) : Except DbErr Db :=
  if db.lineups.any (fun r => r.event_id == row.event_id && r.artist_id == row.artist_id) then
    .error ⟨"duplicate key value violates unique constraint", "23505"⟩
  else
    .ok { db with lineups := db.lineups ++ [row] }

/-- `handleAddLineupEntry`: validate the two required ids, check that
the event and the artist exist, insert, and map a `23505` uniqueness
violation from the store to the 409 conflict response.  `insertErr`
injects a non-constraint store failure of the insert. -/
def handleAddLineupEntry (user : Option String) (event_id artist_id : Nat)
    (is_headliner : Option Bool) (tier : Option Nat) (announcement_date : Option String)
    (newId : Nat) (insertErr : Option DbErr) (db : Db) : LineupAddResult × Db :=
  match user with
  | none => (.unauthorized, db)
  | some _ =>
    if event_id = 0 ∨ artist_id = 0 then
      (.badRequest "Missing required fields: event_id, artist_id", db)
    else if !db.events.any (fun e => e.id == event_id) then
      (.notFound "Event not found or access denied", db)
    else if !db.artists.any (fun a => a.id == artist_id) then
      (.notFound "Artist not found", db)
    else
      let row : LineupRow := ⟨newId, event_id, artist_id, is_headliner, tier, announcement_date⟩
      let inserted : Except DbErr Db :=
        match insertErr with
        | some e => .error e
        | none => lineupInsert row db
      match inserted with
      | .error e =>
        if e.code = "23505" then
          (.conflict "This artist is already in the lineup for this event", db)
        else (.serverError e.message, db)
      | .ok db2 => (.ok row, db2)

/-! ## Event handlers (events function)

Create, update and delete are the administrative path: they verify the
`x-api-key` header against the configured secret and never consult the
`Authorization` bearer token. -/

/-- The two credential headers of a request to the events function. -/
structure AdminRequest where
  apiKeyHeader : Option String
  bearerToken : Option String
deriving DecidableEq, Repr

/-- Caller-supplied body of `handleCreateEvent` (required fields `name`,
`date_start`, `date_end` are falsy when empty). -/
structure EventBody where
  name : String
  date_start : String
  date_end : String
  venue : Option String
  city : Option String
  country : Option String
  featured : Option Bool
  details : Option String
  image_url : Option String
deriving DecidableEq, Repr

/-- Outcome of the administrative event writes. -/
inductive EventWriteResult
  | unauthorized
  | badRequest (msg : String)
  | serverError (msg : String)
  | okEvent (e : EventRow)
  | okDeleted
deriving DecidableEq, Repr

/-- HTTP status of each administrative event-write outcome. -/
def EventWriteResult.status : EventWriteResult → Nat
  | .unauthorized => 401
  | .badRequest _ => 400
  | .serverError _ => 500
  | .okEvent _ => 200
  | .okDeleted => 200

/-- `handleCreateEvent`: API-key gated, inserts the event with
`created_by: null` through the admin client; the bearer token is never
read. -/
def handleCreateEvent (apiKeyConfig : Option String) (r : AdminRequest) (body : EventBody)
    (newId : Nat) (insertErr : Option DbErr) (db : Db) : EventWriteResult × Db :=
  if !verifyApiKey r.apiKeyHeader apiKeyConfig then (.unauthorized, db)
  else if body.name = "" ∨ body.date_start = "" ∨ body.date_end = "" then
    (.badRequest "Missing required fields: name, date_start, date_end", db)
  else
    match insertErr with
    | some e => (.serverError e.message, db)
    | none =>
      let row : EventRow :=
        ⟨newId, body.name, body.date_start, body.date_end, body.venue, body.city,
         body.country, body.featured, body.details, body.image_url, none⟩
      (.okEvent row, { db with events := db.events ++ [row] })

/-- Caller-supplied update payload for an event (`Partial<Event>`). -/
structure EventUpdatePayload where
  id : Option Nat
  name : Option String
  date_start : Option String
  date_end : Option String
  featured : Option Bool
  created_by : Option String
deriving DecidableEq, Repr

/-- Strip `id` and `created_by` from the payload when truthy, as
`handleUpdateEvent` does before the write. -/
def stripEventPayload (p : EventUpdatePayload) : EventUpdatePayload :=
  { p with
    id := match p.id with
      | some i => if i = 0 then some 0 else none
      | none => none
    created_by := match p.created_by with
      | some c => if c = "" then some "" else none
      | none => none }

/-- Apply the surviving update fields to an event row. -/
def applyEventUpdates (p : EventUpdatePayload) (e : EventRow) : EventRow :=
  { e with
    id := p.id.getD e.id
    name := p.name.getD e.name
    date_start := p.date_start.getD e.date_start
    date_end := p.date_end.getD e.date_end
    featured := match p.featured with | some b => some b | none => e.featured
    created_by := match p.created_by with | some c => some c | none => e.created_by }

/-- `handleUpdateEvent`: API-key gated, strips server-assigned fields,
updates through the admin client; the bearer token is never read. -/
def handleUpdateEvent (apiKeyConfig : Option String) (r : AdminRequest)
    (eventId : Option Nat) (payload : EventUpdatePayload) (updErr : Option DbErr)
    (db : Db) : EventWriteResult × Db :=
  if !verifyApiKey r.apiKeyHeader apiKeyConfig then (.unauthorized, db)
  else
    match eventId with
    | none => (.badRequest "Missing event ID", db)
    | some eid =>
      let upd := stripEventPayload payload
      match updErr with
      | some e => (.serverError e.message, db)
      | none =>
        match db.events.find? (fun e => e.id == eid) with
        | none => (.serverError "JSON object requested, multiple (or no) rows returned", db)
        | some e0 =>
          (.okEvent (applyEventUpdates upd e0),
           { db with events := db.events.map (fun e => if e.id == eid then applyEventUpdates upd e else e) })

/-- `handleDeleteEvent`: API-key gated, deletes through the admin
client; the bearer token is never read. -/
def handleDeleteEvent (apiKeyConfig : Option String) (r : AdminRequest)
    (eventId : Option Nat) (delErr : Option DbErr) (db : Db) : EventWriteResult × Db :=
  if !verifyApiKey r.apiKeyHeader apiKeyConfig then (.unauthorized, db)
  else
    match eventId with
    | none => (.badRequest "Missing event ID", db)
    | some eid =>
      match delErr with
      | some e => (.serverError e.message, db)
      | none => (.okDeleted, { db with events := db.events.filter (fun e => e.id ≠ eid) })

/-- The filter predicate shared by `handleListEvents` query building:
`featured` equality, `ilike` name search, `gte` on `date_start` and
`lte` on `date_end`. -/
def eventsQueryFilter (featured : Bool) (search fromP toP : Option String) (e : EventRow) : Bool :=
  (if featured then e.featured == some true else true)
  && (match search with
      | some s => if s = "" then true else ilikeContains e.name s
      | none => true)
  && (match fromP with
      | some f => if f = "" then true else decide (f ≤ e.date_start)
      | none => true)
  && (match toP with
      | some t => if t = "" then true else decide (e.date_end ≤ t)
      | none => true)

/-- The page of events `handleListEvents` receives from the store:
filtered rows, range `[(page-1)*pageSize, page*pageSize - 1]`. -/
def eventsPageRows (featured : Bool) (search fromP toP : Option String)
    (page pageSize : Nat) (db : Db) : List EventRow :=
  let startRange := (page - 1) * pageSize
  let endRange := page * pageSize - 1
  ((db.events.filter (eventsQueryFilter featured search fromP toP)).drop startRange).take
    (endRange + 1 - startRange)

/-- Outcome of `handleListEvents`; the success payload pairs each event
with its `has_user_event` flag. -/
inductive EventsListResult
  | unauthorized
  | serverError (msg : String)
  | ok (events : List (EventRow × Bool))
deriving DecidableEq, Repr

/-- HTTP status of each `handleListEvents` outcome. -/
def EventsListResult.status : EventsListResult → Nat
  | .unauthorized => 401
  | .serverError _ => 500
  | .ok _ => 200

/-- `handleListEvents`: a failure of the events query is surfaced as a
500, but a failure of the `user_events` query is logged and the handler
continues with an empty user-event set, flagging every event
`has_user_event = false`. -/
def handleListEvents (user : Option String) (featured : Bool)
    (search fromP toP : Option String) (page pageSize : Nat)
    (eventsErr userEventsErr : Option DbErr) (db : Db) : EventsListResult :=
  match user with
  | none => .unauthorized
  | some u =>
    match eventsErr with
    | some e => .serverError e.message
    | none =>
      let rows := eventsPageRows featured search fromP toP page pageSize db
      let userEvents : List Nat :=
        match userEventsErr with
        | some _ => []
        | none => (db.user_events.filter (fun p => p.1 == u)).map (fun p => p.2)
      .ok (rows.map (fun e => (e, userEvents.contains e.id)))

/-! ## Set-time schedule handler (set-times/index.ts) -/

/-- A set time enriched with the artist ids of its collaborators. -/
structure EnrichedSetTime where
  set_time : SetTimeRow
  collaborators : List Nat
deriving DecidableEq, Repr

/-- One stage of the schedule response with its enriched set times. -/
structure ScheduleEntry where
  stage : StageRow
  set_times : List EnrichedSetTime
deriving DecidableEq, Repr

/-- Outcome of `handleListSetTimes`. -/
inductive ScheduleResult
  | unauthorized
  | badRequest (msg : String)
  | notFound (msg : String)
  | serverError (msg : String)
  | ok (schedule : List ScheduleEntry)
deriving DecidableEq, Repr

/-- HTTP status of each `handleListSetTimes` outcome. -/
def ScheduleResult.status : ScheduleResult → Nat
  | .unauthorized => 401
  | .badRequest _ => 400
  | .notFound _ => 404
  | .serverError _ => 500
  | .ok _ => 200

/-- Group the fetched set times under their stages, attaching to each
set time the collaborator artists found for it. -/
def buildSchedule (stages : List StageRow) (setTimes : List SetTimeRow)
    (collabs : List CollabRow) : List ScheduleEntry :=
  let enriched := setTimes.map (fun t =>
    ⟨t, (collabs.filter (fun c => c.set_time_id == t.id)).map (fun c => c.artist_id)⟩)
  stages.map (fun s => ⟨s, enriched.filter (fun t => t.set_time.stage_id == s.id)⟩)

/-- `handleListSetTimes`: failures of the stages or set-times queries
are surfaced as 500s, but a failure of the collaborations query is
logged and the handler continues without collaborations, still
returning the 200 schedule. -/
def handleListSetTimes (user : Option String) (eventId : Option Nat)
    (eventErr stagesErr setTimesErr collabErr : Option DbErr) (db : Db) : ScheduleResult :=
  match user with
  | none => .unauthorized
  | some _ =>
    match eventId with
    | none => .badRequest "Missing event ID"
    | some eid =>
      if eventErr.isSome || !db.events.any (fun e => e.id == eid) then
        .notFound "Event not found or access denied"
      else
        match stagesErr with
        | some e => .serverError e.message
        | none =>
          let stages := db.stages.filter (fun s => s.event_id == eid)
          if stages.isEmpty then .ok []
          else
            match setTimesErr with
            | some e => .serverError e.message
            | none =>
              let stageIds := stages.map (fun s => s.id)
              let setTimes := db.set_times.filter (fun t => stageIds.contains t.stage_id)
              let collabs : List CollabRow :=
                match collabErr with
                | some _ => []
                | none =>
                  db.artist_collaborations.filter
                    (fun c => (setTimes.map (fun t => t.id)).contains c.set_time_id)
              .ok (buildSchedule stages setTimes collabs)

/-! ## Theorems -/

/-- Soundness of the group-schedule extractor: any returned segment is
non-empty and numeric. -/
theorem getGroupIdFromParts_numeric (ps : List String) (s : String)
    (h : getGroupIdFromParts ps = some s) : s ≠ "" ∧ jsNumberIsNaN s = false := by
  induction ps with
  | nil => simp [getGroupIdFromParts] at h
  | cons p rest ih =>
    cases rest with
    | nil => simp [getGroupIdFromParts] at h
    | cons q rs =>
      rw [getGroupIdFromParts] at h
      split at h
      · next hc =>
        injection h with h
        subst h
        exact ⟨hc.2.1, hc.2.2⟩
      · exact ih h

/-- Soundness of the artist extractor: any returned segment is
non-empty and numeric. -/
theorem getArtistIdFromParts_numeric (ps : List String) (s : String)
    (h : getArtistIdFromParts ps = some s) : s ≠ "" ∧ jsNumberIsNaN s = false := by
  induction ps with
  | nil => simp [getArtistIdFromParts] at h
  | cons p rest ih =>
    cases rest with
    | nil => simp [getArtistIdFromParts] at h
    | cons q rs =>
      rw [getArtistIdFromParts] at h
      split at h
      · next hc =>
        injection h with h
        subst h
        exact ⟨hc.2.1, hc.2.2⟩
      · exact ih h

/-- C5 (counterexample): the set-time extractor returns the non-numeric
segment `abc` of `/set_times/abc` as an ID, so the claim that every
ID-extraction function returns null for a non-numeric segment in ID
position is false on the code. -/
theorem c5_extractor_counterexample :
    getSetTimeIdFromUrl "/set_times/abc" = some "abc" ∧ jsNumberIsNaN "abc" = true := by
  constructor
  · rfl
  · decide

/-- C5 (amended): the group-schedule and artist extractors never return
an empty or non-numeric segment, so for them a non-numeric segment in
ID position signals route-not-matched; the set-time, lineup-entry and
collaboration extractors instead return the segment following the
resource keyword unconditionally, numeric or not. -/
theorem c5_extractors_amended :
    (∀ (ps : List String) (s : String),
      getGroupIdFromParts ps = some s → s ≠ "" ∧ jsNumberIsNaN s = false) ∧
    (∀ (ps : List String) (s : String),
      getArtistIdFromParts ps = some s → s ≠ "" ∧ jsNumberIsNaN s = false) ∧
    (∀ (q : String) (rest : List String),
      getSetTimeIdFromParts ("set_times" :: q :: rest) = some q) ∧
    (∀ (q : String) (rest : List String),
      getLineupEntryIdFromParts ("lineups" :: q :: rest) = some q) ∧
    (∀ (q : String) (rest : List String),
      getCollaborationIdFromParts ("artist_collaborations" :: q :: rest) = some q) := by
  refine ⟨getGroupIdFromParts_numeric, getArtistIdFromParts_numeric, ?_, ?_, ?_⟩
  · intro q rest
    simp [getSetTimeIdFromParts]
  · intro q rest
    simp [getLineupEntryIdFromParts]
  · intro q rest
    simp [getCollaborationIdFromParts]

/-- Concrete instance of the amended C5 statement: the group-schedule
extractor accepts the numeric segment `12`, and the set-time extractor
passes through an arbitrary segment. -/
theorem c5_extractors_amended_witness :
    ("12" ≠ "" ∧ jsNumberIsNaN "12" = false) ∧
    getSetTimeIdFromParts ["set_times", "abc"] = some "abc" :=
  ⟨c5_extractors_amended.1 ["", "group-schedules", "12"] "12" (by decide),
   c5_extractors_amended.2.2.1 "abc" []⟩

/-- C1: a successful group creation adds exactly one `group_schedules`
row and exactly one `group_members` row making the caller an accepted
admin; when the member insert fails, the compensating delete removes
the just-created group row (the store is back to its prior state and no
row carries the new id), and the surfaced status is 403 for a
row-level-security rejection and 500 otherwise. -/
theorem c1_create_group_saga
    (u name : String) (event_id newGroupId newMemberId : Nat)
    (memberInsertErr : Option DbErr) (db : Db)
    (hname : name ≠ "") (hev : event_id ≠ 0)
    (hfresh : ∀ g ∈ db.group_schedules, g.id ≠ newGroupId) :
    (memberInsertErr = none →
      handleCreateGroupSchedule (some u) name event_id newGroupId newMemberId none none db =
        (.created ⟨newGroupId, name, event_id, u⟩,
         { db with
             group_schedules := db.group_schedules ++ [⟨newGroupId, name, event_id, u⟩],
             group_members := db.group_members ++ [⟨newMemberId, newGroupId, u, true, .accepted⟩] })) ∧
    (∀ e, memberInsertErr = some e →
      (handleCreateGroupSchedule (some u) name event_id newGroupId newMemberId none (some e) db).2
          = db ∧
      (∀ g ∈ (handleCreateGroupSchedule (some u) name event_id newGroupId newMemberId none
          (some e) db).2.group_schedules, g.id ≠ newGroupId) ∧
      (handleCreateGroupSchedule (some u) name event_id newGroupId newMemberId none
          (some e) db).1.status = (if mentionsRls e then 403 else 500)) := by
  have hfilter : db.group_schedules.filter (fun x => !decide (x.id = newGroupId))
      = db.group_schedules :=
    List.filter_eq_self.mpr (fun a ha => by simpa using hfresh a ha)
  constructor
  · intro _
    simp [handleCreateGroupSchedule, hname, hev]
  · intro e _
    have hmain : handleCreateGroupSchedule (some u) name event_id newGroupId newMemberId none
        (some e) db =
        (if mentionsRls e = true then GSCreateResult.rlsMembers e.message
         else GSCreateResult.serverError e.message, db) := by
      by_cases hrls : mentionsRls e = true <;>
        simp [handleCreateGroupSchedule, hname, hev, hrls, List.filter_append, hfilter]
    rw [hmain]
    refine ⟨rfl, ?_, ?_⟩
    · intro g hg
      exact hfresh g (by simpa using hg)
    · by_cases hrls : mentionsRls e = true <;> simp [hrls, GSCreateResult.status]

/-- Concrete run of the successful branch of the C1 saga on an empty
store. -/
theorem c1_create_group_saga_witness :
    handleCreateGroupSchedule (some "alice") "squad" 1 1 1 none none
        ⟨[], [], [], [], [], [], [], [], []⟩ =
      (.created ⟨1, "squad", 1, "alice"⟩,
       ⟨[], [], [], [], [], [], [⟨1, "squad", 1, "alice"⟩],
        [⟨1, 1, "alice", true, .accepted⟩], []⟩) :=
  (c1_create_group_saga "alice" "squad" 1 1 1 none ⟨[], [], [], [], [], [], [], [], []⟩
      (by decide) (by decide) (by simp)).1 rfl

/-- C2: a GET of a specific group schedule by an authenticated caller
who is neither the creator nor a member returns the 404 not-found
response, and that response is identical to the one returned when no
group with that id exists at all. -/
theorem c2_get_inaccessible_collapses_to_notfound
    (u : String) (gid : Nat) (stA stB : Db)
    (hexists : ∃ g ∈ stA.group_schedules, g.id = gid)
    (hnc : ∀ g ∈ stA.group_schedules, g.id = gid → g.created_by ≠ u)
    (hnmA : ∀ m ∈ stA.group_members, ¬(m.group_id = gid ∧ m.user_id = u))
    (habsent : ∀ g ∈ stB.group_schedules, g.id ≠ gid)
    (hnmB : ∀ m ∈ stB.group_members, ¬(m.group_id = gid ∧ m.user_id = u)) :
    handleGetGroupSchedule (some u) (some gid) none none none none stA =
      .notFound "Group schedule not found or you don\x27t have access" ∧
    (handleGetGroupSchedule (some u) (some gid) none none none none stA).status = 404 ∧
    handleGetGroupSchedule (some u) (some gid) none none none none stA =
      handleGetGroupSchedule (some u) (some gid) none none none none stB := by
  have hcA : creatorCheck u gid stA = false := by
    have h : stA.group_schedules.find? (fun g => g.id == gid && g.created_by == u) = none := by
      apply List.find?_eq_none.mpr
      intro g hg
      simp only [Bool.and_eq_true, beq_iff_eq, not_and]
      intro h1 h2
      exact hnc g hg h1 h2
    simp [creatorCheck, h]
  have hmA : membershipCheck u gid stA = false := by
    have h : stA.group_members.find? (fun m => m.group_id == gid && m.user_id == u) = none := by
      apply List.find?_eq_none.mpr
      intro m hm
      simp only [Bool.and_eq_true, beq_iff_eq, not_and]
      intro h1 h2
      exact hnmA m hm ⟨h1, h2⟩
    simp [membershipCheck, h]
  have hcB : creatorCheck u gid stB = false := by
    have h : stB.group_schedules.find? (fun g => g.id == gid && g.created_by == u) = none := by
      apply List.find?_eq_none.mpr
      intro g hg
      simp only [Bool.and_eq_true, beq_iff_eq, not_and]
      intro h1 _
      exact absurd h1 (habsent g hg)
    simp [creatorCheck, h]
  have hmB : membershipCheck u gid stB = false := by
    have h : stB.group_members.find? (fun m => m.group_id == gid && m.user_id == u) = none := by
      apply List.find?_eq_none.mpr
      intro m hm
      simp only [Bool.and_eq_true, beq_iff_eq, not_and]
      intro h1 h2
      exact hnmB m hm ⟨h1, h2⟩
    simp [membershipCheck, h]
  refine ⟨?_, ?_, ?_⟩ <;>
    simp [handleGetGroupSchedule, hcA, hmA, hcB, hmB, GSGetResult.status]

/-- Concrete instance of C2: the store holds group 1 created by `bob`
with no members; `alice` requests it and gets exactly the response she
would get from a store without the group. -/
theorem c2_get_inaccessible_witness :
    handleGetGroupSchedule (some "alice") (some 1) none none none none
        ⟨[], [], [], [], [], [], [⟨1, "g", 1, "bob"⟩], [], []⟩ =
      .notFound "Group schedule not found or you don\x27t have access" :=
  (c2_get_inaccessible_collapses_to_notfound "alice" 1
      ⟨[], [], [], [], [], [], [⟨1, "g", 1, "bob"⟩], [], []⟩
      ⟨[], [], [], [], [], [], [], [], []⟩
      ⟨⟨1, "g", 1, "bob"⟩, by simp, rfl⟩
      (by intro g hg h1; simp at hg; simp [hg])
      (by simp) (by simp) (by simp)).1

/-- C3: the group-schedule update write happens exactly when the caller
is the creator or an admin member, otherwise the unauthorized response
is returned and the store is untouched; the delete write happens
exactly when the caller is the creator — any non-creator, an admin
member included, is refused and the group row survives. -/
theorem c3_update_delete_authorization
    (u : String) (gid : Nat) (payload : GSUpdatePayload) (db : Db)
    (hexists : ∃ g ∈ db.group_schedules, g.id = gid) :
    ((creatorCheck u gid db || adminCheck u gid db) = true →
      (∃ g, (handleUpdateGroupSchedule (some u) (some gid) payload none none none db).1 =
          .ok g) ∧
      (handleUpdateGroupSchedule (some u) (some gid) payload none none none db).2.group_schedules =
        db.group_schedules.map
          (fun g => if g.id == gid then applyGSUpdates (stripGSPayload payload) g else g)) ∧
    ((creatorCheck u gid db || adminCheck u gid db) = false →
      (handleUpdateGroupSchedule (some u) (some gid) payload none none none db).1 =
        .unauthorized ∧
      (handleUpdateGroupSchedule (some u) (some gid) payload none none none db).2 = db) ∧
    (creatorCheck u gid db = true →
      (handleDeleteGroupSchedule (some u) (some gid) none none db).1 = .ok ∧
      (handleDeleteGroupSchedule (some u) (some gid) none none db).2.group_schedules =
        db.group_schedules.filter (fun g => g.id ≠ gid)) ∧
    (creatorCheck u gid db = false →
      (handleDeleteGroupSchedule (some u) (some gid) none none db).1 = .unauthorized ∧
      (handleDeleteGroupSchedule (some u) (some gid) none none db).2 = db ∧
      ∃ g ∈ (handleDeleteGroupSchedule (some u) (some gid) none none db).2.group_schedules,
        g.id = gid) := by
  obtain ⟨g0, hg0, hid⟩ := hexists
  have hfind : ∃ gf, db.group_schedules.find? (fun g => g.id == gid) = some gf :=
    Option.isSome_iff_exists.mp (List.find?_isSome.mpr ⟨g0, hg0, by simp [hid]⟩)
  obtain ⟨gf, hgf⟩ := hfind
  refine ⟨?_, ?_, ?_, ?_⟩
  · intro hauth
    cases hC : creatorCheck u gid db with
    | true =>
      refine ⟨⟨applyGSUpdates (stripGSPayload payload) gf, ?_⟩, ?_⟩ <;>
        simp [handleUpdateGroupSchedule, hC, runGSUpdate, hgf]
    | false =>
      have hA : adminCheck u gid db = true := by
        rw [hC] at hauth
        simpa using hauth
      refine ⟨⟨applyGSUpdates (stripGSPayload payload) gf, ?_⟩, ?_⟩ <;>
        simp [handleUpdateGroupSchedule, hC, hA, runGSUpdate, hgf]
  · intro hnone
    obtain ⟨h1, h2⟩ : creatorCheck u gid db = false ∧ adminCheck u gid db = false := by
      constructor <;> revert hnone <;> cases creatorCheck u gid db <;>
        cases adminCheck u gid db <;> simp
    constructor <;> simp [handleUpdateGroupSchedule, h1, h2]
  · intro hC
    constructor <;> simp [handleDeleteGroupSchedule, hC]
  · intro hC
    have hmain : handleDeleteGroupSchedule (some u) (some gid) none none db =
        (.unauthorized, db) := by
      simp [handleDeleteGroupSchedule, hC]
    rw [hmain]
    exact ⟨rfl, rfl, g0, hg0, hid⟩

/-- Concrete instance of C3: the creator deletes their own group;
the row is removed. -/
theorem c3_update_delete_authorization_witness :
    (handleDeleteGroupSchedule (some "alice") (some 1) none none
        ⟨[], [], [], [], [], [], [⟨1, "g", 1, "alice"⟩], [], []⟩).1 = .ok ∧
    (handleDeleteGroupSchedule (some "alice") (some 1) none none
        ⟨[], [], [], [], [], [], [⟨1, "g", 1, "alice"⟩], [], []⟩).2.group_schedules = [] :=
  have h := (c3_update_delete_authorization "alice" 1 ⟨none, none, none, none⟩
      ⟨[], [], [], [], [], [], [⟨1, "g", 1, "alice"⟩], [], []⟩
      ⟨⟨1, "g", 1, "alice"⟩, by simp, rfl⟩).2.2.1 (by decide)
  ⟨h.1, h.2⟩

/-- One upsert step of the JavaScript `Map` keeps the keys duplicate-
free: an existing key only has its value replaced (same id), a fresh
key is appended. -/
theorem jsMapDedupUpsert_nodup (acc : List GroupSchedule) (g : GroupSchedule)
    (h : (acc.map (fun x => x.id)).Nodup) :
    ((jsMapDedupUpsert acc g).map (fun x => x.id)).Nodup := by
  unfold jsMapDedupUpsert
  split
  · next hany =>
    have heq : (acc.map (fun x => if x.id == g.id then g else x)).map (fun x => x.id) =
        acc.map (fun x => x.id) := by
      rw [List.map_map]
      apply List.map_congr_left
      intro x _
      by_cases hxg : x.id = g.id <;> simp [hxg]
    rw [heq]
    exact h
  · next hany =>
    rw [List.map_append]
    rw [List.nodup_append]
    refine ⟨h, List.nodup_singleton _, ?_⟩
    intro a ha hb
    simp only [List.map_cons, List.map_nil, List.mem_singleton] at hb
    subst hb
    obtain ⟨x, hx, hxa⟩ := List.mem_map.mp ha
    exact hany (List.any_eq_true.mpr ⟨x, hx, by simp [hxa]⟩)

/-- The ids of a `Map`-deduplicated list are pairwise distinct. -/
theorem jsMapDedup_nodup (l : List GroupSchedule) :
    ((jsMapDedup l).map (fun x => x.id)).Nodup := by
  unfold jsMapDedup
  suffices h : ∀ acc, (acc.map (fun x => x.id)).Nodup →
      ((l.foldl jsMapDedupUpsert acc).map (fun x => x.id)).Nodup by
    exact h [] (by simp)
  induction l with
  | nil => intro acc h; simpa using h
  | cons g l ih =>
    intro acc h
    exact ih _ (jsMapDedupUpsert_nodup acc g h)

/-- The whole list pipeline keeps ids duplicate-free: filtering and
pagination only select a sublist of the deduplicated list. -/
theorem gsListPipeline_nodup (u : String) (eventId : Option Nat) (db : Db) :
    ((gsListPipeline u eventId db).map (fun g => g.id)).Nodup := by
  unfold gsListPipeline
  cases eventId with
  | none => exact jsMapDedup_nodup _
  | some eid =>
    exact (jsMapDedup_nodup _).sublist ((List.filter_sublist _).map _)

/-- C10: every successful group-schedule list response carries each
group id at most once — the merge of created-by and membership results
is deduplicated by id before the event filter and pagination are
applied. -/
theorem c10_list_group_ids_nodup (user : Option String) (eventId : Option Nat)
    (page pageSize : Nat) (createdErr memberErr : Option DbErr) (db : Db) :
    ((handleListGroupSchedules user eventId page pageSize createdErr memberErr db).groupIds).Nodup := by
  unfold handleListGroupSchedules
  cases user with
  | none => simp [GSListResult.groupIds]
  | some u =>
    cases createdErr with
    | some e => simp [GSListResult.groupIds]
    | none =>
      cases memberErr with
      | some e => simp [GSListResult.groupIds]
      | none =>
        simp only [GSListResult.groupIds]
        have hsub : (((gsListPipeline u eventId db).drop ((page - 1) * pageSize)).take
            (page * pageSize - 1 + 1 - (page - 1) * pageSize)).Sublist (gsListPipeline u eventId db) :=
          (List.take_sublist _ _).trans (List.drop_sublist _ _)
        exact (gsListPipeline_nodup u eventId db).sublist (hsub.map _)

/-- Inserting into the name-sorted list adds one element. -/
theorem length_insertByName (a : Artist) (l : List Artist) :
    (insertByName a l).length = l.length + 1 := by
  induction l with
  | nil => rfl
  | cons b bs ih => by_cases h : a.name ≤ b.name <;> simp [insertByName, h, ih]

/-- Ordering by name preserves the number of rows. -/
theorem length_sortByName (l : List Artist) : (sortByName l).length = l.length := by
  induction l with
  | nil => rfl
  | cons a as ih => simp [sortByName, length_insertByName, ih]

/-- The requested inclusive range `[(page-1)*pageSize, page*pageSize-1]`
spans exactly `pageSize` positions. -/
theorem pageRangeWidth (page pageSize : Nat) (hp : 1 ≤ page) (hs : 1 ≤ pageSize) :
    page * pageSize - 1 + 1 - (page - 1) * pageSize = pageSize := by
  obtain ⟨p, rfl⟩ : ∃ p, page = p + 1 := ⟨page - 1, by omega⟩
  have h1 : (p + 1) * pageSize = p * pageSize + pageSize := by ring
  have h2 : p + 1 - 1 = p := by omega
  rw [h1, h2]
  generalize p * pageSize = a
  omega

/-- C4: both list handlers page the filtered result set by the
zero-based inclusive range `[(page-1)*pageSize, page*pageSize - 1]`
(equivalently: drop `(page-1)*pageSize` rows, take `pageSize`), report
`totalCount` as the size of the same filtered set the page was cut
from, and report `totalPages = Math.ceil(totalCount / pageSize)` —
which is the ceiling division `totalCount ⌈/⌉ pageSize` and is `0` for
an empty result set; in particular a 23-row result set with page size
10 has 3 pages and its third page is exactly the rows at zero-based
positions 20, 21 and 22. -/
theorem c4_list_pagination
    (u : String) (search : Option String) (eventId : Option Nat)
    (page pageSize : Nat) (db : Db)
    (hp : 1 ≤ page) (hs : 1 ≤ pageSize) :
    (handleListArtists (some u) search page pageSize none none db =
      .ok (((sortByName (artistSearchFilter search db.artists)).drop
              ((page - 1) * pageSize)).take pageSize)
        ⟨page, pageSize, (artistSearchFilter search db.artists).length,
         if (artistSearchFilter search db.artists).length = 0 then 0
         else jsMathCeil (artistSearchFilter search db.artists).length pageSize⟩) ∧
    (handleListGroupSchedules (some u) eventId page pageSize none none db =
      .ok (((gsListPipeline u eventId db).drop ((page - 1) * pageSize)).take pageSize)
        ⟨page, pageSize, (gsListPipeline u eventId db).length,
         jsMathCeil (gsListPipeline u eventId db).length pageSize⟩) ∧
    (∀ a : Nat, jsMathCeil a pageSize = a ⌈/⌉ pageSize) ∧
    jsMathCeil 0 pageSize = 0 ∧
    ((artistSearchFilter search db.artists).length = 23 → page = 3 → pageSize = 10 →
      handleListArtists (some u) search page pageSize none none db =
        .ok ((sortByName (artistSearchFilter search db.artists)).drop 20) ⟨3, 10, 23, 3⟩ ∧
      ((sortByName (artistSearchFilter search db.artists)).drop 20).length = 3) := by
  have hw := pageRangeWidth page pageSize hp hs
  have hart : handleListArtists (some u) search page pageSize none none db =
      .ok (((sortByName (artistSearchFilter search db.artists)).drop
              ((page - 1) * pageSize)).take pageSize)
        ⟨page, pageSize, (artistSearchFilter search db.artists).length,
         if (artistSearchFilter search db.artists).length = 0 then 0
         else jsMathCeil (artistSearchFilter search db.artists).length pageSize⟩ := by
    simp only [handleListArtists]
    rw [hw]
  refine ⟨hart, ?_, ?_, ?_, ?_⟩
  · simp only [handleListGroupSchedules]
    rw [hw]
  · intro a
    exact (Nat.ceilDiv_eq_add_pred_div a pageSize).symm
  · show (0 + pageSize - 1) / pageSize = 0
    exact Nat.div_eq_of_lt (by omega)
  · intro h23 hpage hpsize
    subst hpage
    subst hpsize
    have hlen : (sortByName (artistSearchFilter search db.artists)).length = 23 := by
      rw [length_sortByName]
      exact h23
    have hdl : ((sortByName (artistSearchFilter search db.artists)).drop 20).length = 3 := by
      rw [List.length_drop, hlen]
    have htake : ((sortByName (artistSearchFilter search db.artists)).drop 20).take 10 =
        (sortByName (artistSearchFilter search db.artists)).drop 20 :=
      List.take_of_length_le (by rw [hdl]; norm_num)
    refine ⟨?_, hdl⟩
    rw [hart, h23]
    norm_num [htake, jsMathCeil]

/-- Concrete instances of C4: an empty store yields an empty first page
with zero total pages, and a 23-artist store at page 3 of size 10
yields the rows at positions 20 to 22. -/
theorem c4_list_pagination_witness :
    (handleListArtists (some "u") none 1 10 none none ⟨[], [], [], [], [], [], [], [], []⟩ =
      .ok [] ⟨1, 10, 0, 0⟩) ∧
    (handleListArtists (some "u") none 3 10 none none
        ⟨[], [], (List.range 23).map (fun i => ⟨i + 1, "a", none, none, none, none⟩),
         [], [], [], [], [], []⟩ =
      .ok ((sortByName ((List.range 23).map
            (fun i => ⟨i + 1, "a", none, none, none, none⟩))).drop 20) ⟨3, 10, 23, 3⟩) :=
  ⟨(c4_list_pagination "u" none none 1 10 ⟨[], [], [], [], [], [], [], [], []⟩
      (by decide) (by decide)).1,
   ((c4_list_pagination "u" none none 3 10
      ⟨[], [], (List.range 23).map (fun i => ⟨i + 1, "a", none, none, none, none⟩),
       [], [], [], [], [], []⟩ (by decide) (by decide)).2.2.2.2
      (by simp [artistSearchFilter]) rfl rfl).1⟩

/-- C8: an administrative delete of an existing artist is refused with
a 409 conflict carrying the count of the referencing table whenever any
lineup, set-time or collaboration row references the artist, and the
store is left unchanged; the artist row is removed exactly when all
three dependency counts are zero. -/
theorem c8_delete_artist_dependencies
    (hdr cfg : Option String) (aid : Nat) (db : Db)
    (hkey : verifyApiKey hdr cfg = true)
    (hexists : db.artists.any (fun a => a.id == aid) = true) :
    (0 < lineupCountOf aid db →
      handleDeleteArtist hdr cfg (some aid) none none none none none db =
        (.conflictLineups (lineupCountOf aid db), db) ∧
      (ArtistDeleteResult.conflictLineups (lineupCountOf aid db)).status = 409) ∧
    (lineupCountOf aid db = 0 → 0 < setTimeCountOf aid db →
      handleDeleteArtist hdr cfg (some aid) none none none none none db =
        (.conflictSetTimes (setTimeCountOf aid db), db) ∧
      (ArtistDeleteResult.conflictSetTimes (setTimeCountOf aid db)).status = 409) ∧
    (lineupCountOf aid db = 0 → setTimeCountOf aid db = 0 → 0 < collabCountOf aid db →
      handleDeleteArtist hdr cfg (some aid) none none none none none db =
        (.conflictCollabs (collabCountOf aid db), db) ∧
      (ArtistDeleteResult.conflictCollabs (collabCountOf aid db)).status = 409) ∧
    (lineupCountOf aid db = 0 → setTimeCountOf aid db = 0 → collabCountOf aid db = 0 →
      handleDeleteArtist hdr cfg (some aid) none none none none none db =
        (.ok, { db with artists := db.artists.filter (fun a => a.id ≠ aid) })) ∧
    ((handleDeleteArtist hdr cfg (some aid) none none none none none db).1 = .ok →
      lineupCountOf aid db = 0 ∧ setTimeCountOf aid db = 0 ∧ collabCountOf aid db = 0) := by
  refine ⟨?_, ?_, ?_, ?_, ?_⟩
  · intro hL
    constructor
    · simp [handleDeleteArtist, hkey, hexists, hL, Nat.pos_iff_ne_zero.mp hL]
    · rfl
  · intro hL hS
    constructor
    · simp [handleDeleteArtist, hkey, hexists, hL, hS, Nat.pos_iff_ne_zero.mp hS]
    · rfl
  · intro hL hS hC
    constructor
    · simp [handleDeleteArtist, hkey, hexists, hL, hS, hC, Nat.pos_iff_ne_zero.mp hC]
    · rfl
  · intro hL hS hC
    simp [handleDeleteArtist, hkey, hexists, hL, hS, hC]
  · intro hok
    by_cases hL : lineupCountOf aid db = 0
    · by_cases hS : setTimeCountOf aid db = 0
      · by_cases hC : collabCountOf aid db = 0
        · exact ⟨hL, hS, hC⟩
        · rw [(by simp [handleDeleteArtist, hkey, hexists, hL, hS, hC] :
            handleDeleteArtist hdr cfg (some aid) none none none none none db =
              (.conflictCollabs (collabCountOf aid db), db))] at hok
          simp at hok
      · rw [(by simp [handleDeleteArtist, hkey, hexists, hL, hS] :
          handleDeleteArtist hdr cfg (some aid) none none none none none db =
            (.conflictSetTimes (setTimeCountOf aid db), db))] at hok
        simp at hok
    · rw [(by simp [handleDeleteArtist, hkey, hexists, hL] :
        handleDeleteArtist hdr cfg (some aid) none none none none none db =
          (.conflictLineups (lineupCountOf aid db), db))] at hok
      simp at hok

/-- Concrete instance of C8: an artist with exactly one lineup entry
referencing it is not deleted; the response is the 409 conflict with
`dependencies.lineups = 1`. -/
theorem c8_delete_artist_dependencies_witness :
    handleDeleteArtist (some "k") (some "k") (some 1) none none none none none
        ⟨[], [], [⟨1, "a", none, none, none, none⟩], [⟨1, 2, 1, none, none, none⟩],
         [], [], [], [], []⟩ =
      (.conflictLineups 1,
       ⟨[], [], [⟨1, "a", none, none, none, none⟩], [⟨1, 2, 1, none, none, none⟩],
        [], [], [], [], []⟩) :=
  ((c8_delete_artist_dependencies (some "k") (some "k") 1
      ⟨[], [], [⟨1, "a", none, none, none, none⟩], [⟨1, 2, 1, none, none, none⟩],
       [], [], [], [], []⟩ (by decide) (by decide)).1 (by decide)).1

/-- C7: inserting a lineup entry whose `(event_id, artist_id)` pair
already exists yields the 409 conflict response and leaves the store
unchanged; a fresh pair is inserted once, and repeating the identical
request afterwards yields the 409 conflict with no second row. -/
theorem c7_lineup_insert_conflict
    (u : String) (event_id artist_id : Nat) (head : Option Bool) (tier : Option Nat)
    (ad : Option String) (newId newId2 : Nat) (db : Db)
    (hev : event_id ≠ 0) (har : artist_id ≠ 0)
    (hevent : db.events.any (fun e => e.id == event_id) = true)
    (hartist : db.artists.any (fun a => a.id == artist_id) = true) :
    (db.lineups.any (fun r => r.event_id == event_id && r.artist_id == artist_id) = true →
      handleAddLineupEntry (some u) event_id artist_id head tier ad newId none db =
        (.conflict "This artist is already in the lineup for this event", db) ∧
      (LineupAddResult.conflict "This artist is already in the lineup for this event").status
        = 409) ∧
    (db.lineups.any (fun r => r.event_id == event_id && r.artist_id == artist_id) = false →
      handleAddLineupEntry (some u) event_id artist_id head tier ad newId none db =
        (.ok ⟨newId, event_id, artist_id, head, tier, ad⟩,
         { db with lineups := db.lineups ++ [⟨newId, event_id, artist_id, head, tier, ad⟩] }) ∧
      handleAddLineupEntry (some u) event_id artist_id head tier ad newId2 none
          { db with lineups := db.lineups ++ [⟨newId, event_id, artist_id, head, tier, ad⟩] } =
        (.conflict "This artist is already in the lineup for this event",
         { db with lineups := db.lineups ++ [⟨newId, event_id, artist_id, head, tier, ad⟩] })) := by
  constructor
  · intro hdup
    constructor
    · simp [handleAddLineupEntry, hev, har, hevent, hartist, lineupInsert, hdup]
    · rfl
  · intro hdup
    constructor
    · simp [handleAddLineupEntry, hev, har, hevent, hartist, lineupInsert, hdup]
    · have hdup2 : ((db.lineups ++ [(⟨newId, event_id, artist_id, head, tier, ad⟩ : LineupRow)]).any
          (fun r => r.event_id == event_id && r.artist_id == artist_id)) = true := by
        simp
      simp [handleAddLineupEntry, hev, har, hevent, hartist, lineupInsert, hdup2]

/-- Concrete instance of C7: after a first successful insert for
`(event 1, artist 1)`, the identical request is answered with the 409
conflict and the table keeps the single row. -/
theorem c7_lineup_insert_conflict_witness :
    handleAddLineupEntry (some "u") 1 1 none none none 2 none
        ⟨[⟨1, "ev", "a", "b", none, none, none, none, none, none, none⟩], [],
         [⟨1, "a", none, none, none, none⟩], [⟨1, 1, 1, none, none, none⟩],
         [], [], [], [], []⟩ =
      (.conflict "This artist is already in the lineup for this event",
       ⟨[⟨1, "ev", "a", "b", none, none, none, none, none, none, none⟩], [],
        [⟨1, "a", none, none, none, none⟩], [⟨1, 1, 1, none, none, none⟩],
        [], [], [], [], []⟩) :=
  ((c7_lineup_insert_conflict "u" 1 1 none none none 2 2
      ⟨[⟨1, "ev", "a", "b", none, none, none, none, none, none, none⟩], [],
       [⟨1, "a", none, none, none, none⟩], [⟨1, 1, 1, none, none, none⟩],
       [], [], [], [], []⟩
      (by decide) (by decide) (by decide) (by decide)).1 (by decide)).1

/-- C9: the administrative event writes are decided by the `x-api-key`
header alone — two requests differing only in their bearer token get
identical outcomes; without a matching key each handler returns the
unauthorized response and writes nothing, and with a matching key the
create proceeds (here: to the inserted row) whatever the bearer is. -/
theorem c9_admin_path_bearer_independent
    (cfg : Option String) (r1 r2 : AdminRequest) (body : EventBody)
    (eventId : Option Nat) (payload : EventUpdatePayload)
    (newId : Nat) (insertErr updErr delErr : Option DbErr) (db : Db)
    (hkey : r1.apiKeyHeader = r2.apiKeyHeader) :
    (handleCreateEvent cfg r1 body newId insertErr db =
      handleCreateEvent cfg r2 body newId insertErr db) ∧
    (handleUpdateEvent cfg r1 eventId payload updErr db =
      handleUpdateEvent cfg r2 eventId payload updErr db) ∧
    (handleDeleteEvent cfg r1 eventId delErr db =
      handleDeleteEvent cfg r2 eventId delErr db) ∧
    (verifyApiKey r1.apiKeyHeader cfg = false →
      handleCreateEvent cfg r1 body newId insertErr db = (.unauthorized, db) ∧
      handleUpdateEvent cfg r1 eventId payload updErr db = (.unauthorized, db) ∧
      handleDeleteEvent cfg r1 eventId delErr db = (.unauthorized, db)) ∧
    (verifyApiKey r1.apiKeyHeader cfg = true → body.name ≠ "" → body.date_start ≠ "" →
      body.date_end ≠ "" → insertErr = none →
      handleCreateEvent cfg r1 body newId insertErr db =
        (.okEvent ⟨newId, body.name, body.date_start, body.date_end, body.venue, body.city,
            body.country, body.featured, body.details, body.image_url, none⟩,
         { db with events := db.events ++
             [⟨newId, body.name, body.date_start, body.date_end, body.venue, body.city,
               body.country, body.featured, body.details, body.image_url, none⟩] })) := by
  refine ⟨?_, ?_, ?_, ?_, ?_⟩
  · simp [handleCreateEvent, hkey]
  · simp [handleUpdateEvent, hkey]
  · simp [handleDeleteEvent, hkey]
  · intro hno
    refine ⟨?_, ?_, ?_⟩ <;>
      simp [handleCreateEvent, handleUpdateEvent, handleDeleteEvent, hno]
  · intro hyes h1 h2 h3 hins
    subst hins
    simp [handleCreateEvent, hyes, h1, h2, h3]

/-- Concrete instance of C9: with the configured key `k`, two requests
whose bearer tokens differ create the same event. -/
theorem c9_admin_path_bearer_independent_witness :
    handleCreateEvent (some "k") ⟨some "k", some "bearer-of-alice"⟩
        ⟨"ev", "2024-01-01", "2024-01-02", none, none, none, none, none, none⟩ 1 none
        ⟨[], [], [], [], [], [], [], [], []⟩ =
      handleCreateEvent (some "k") ⟨some "k", some "bearer-of-bob"⟩
        ⟨"ev", "2024-01-01", "2024-01-02", none, none, none, none, none, none⟩ 1 none
        ⟨[], [], [], [], [], [], [], [], []⟩ :=
  (c9_admin_path_bearer_independent (some "k") ⟨some "k", some "bearer-of-alice"⟩
      ⟨some "k", some "bearer-of-bob"⟩
      ⟨"ev", "2024-01-01", "2024-01-02", none, none, none, none, none, none⟩
      none ⟨none, none, none, none, none, none⟩ 1 none none none
      ⟨[], [], [], [], [], [], [], [], []⟩ rfl).1

/-- C6 (counterexample): with one event, one stage and one set time,
a failing collaborations query does not stop `handleListSetTimes` — the
handler ignores the failed store call and returns the 200 schedule
built from partial data (no collaborators), so the claim that every
failed store call is surfaced as an error response is false on the
code. -/
theorem c6_store_error_counterexample :
    handleListSetTimes (some "u") (some 1) none none none
        (some ⟨"connection reset", ""⟩)
        ⟨[⟨1, "ev", "2024-01-01", "2024-01-02", none, none, none, none, none, none, none⟩],
         [⟨1, 1, "Main"⟩], [], [], [⟨1, 1, 1, "18:00", "19:00", none⟩], [], [], [], []⟩ =
      .ok [⟨⟨1, 1, "Main"⟩, [⟨⟨1, 1, 1, "18:00", "19:00", none⟩, []⟩]⟩] ∧
    (ScheduleResult.ok
        [⟨⟨1, 1, "Main"⟩, [⟨⟨1, 1, 1, "18:00", "19:00", none⟩, []⟩]⟩]).status = 200 := by
  constructor
  · rfl
  · rfl

/-- C6 (amended): in the two cited list handlers, a failed store call
is surfaced at once and never retried — the event lookup as the 404,
the stages, set-times and events queries as 500s — with two deliberate
continue-on-error exceptions: a failing collaborations query makes
`handleListSetTimes` return the 200 schedule with no collaborators, and
a failing `user_events` query makes `handleListEvents` return the 200
page with `has_user_event = false` on every event. -/
theorem c6_error_propagation_amended
    (u : String) (eid : Nat) (e : DbErr) (db : Db)
    (featured : Bool) (search fromP toP : Option String) (page pageSize : Nat)
    (hevent : db.events.any (fun ev => ev.id == eid) = true)
    (hstages : (db.stages.filter (fun s => s.event_id == eid)).isEmpty = false) :
    (handleListSetTimes (some u) (some eid) (some e) none none none db =
      .notFound "Event not found or access denied") ∧
    (handleListSetTimes (some u) (some eid) none (some e) none none db =
      .serverError e.message) ∧
    (handleListSetTimes (some u) (some eid) none none (some e) none db =
      .serverError e.message) ∧
    (handleListSetTimes (some u) (some eid) none none none (some e) db =
      .ok (buildSchedule (db.stages.filter (fun s => s.event_id == eid))
            (db.set_times.filter (fun t =>
              ((db.stages.filter (fun s => s.event_id == eid)).map (fun s => s.id)).contains
                t.stage_id)) [])) ∧
    (∀ entry ∈ buildSchedule (db.stages.filter (fun s => s.event_id == eid))
        (db.set_times.filter (fun t =>
          ((db.stages.filter (fun s => s.event_id == eid)).map (fun s => s.id)).contains
            t.stage_id)) [],
      ∀ t ∈ entry.set_times, t.collaborators = []) ∧
    (handleListEvents (some u) featured search fromP toP page pageSize (some e) none db =
      .serverError e.message) ∧
    (handleListEvents (some u) featured search fromP toP page pageSize none (some e) db =
      .ok ((eventsPageRows featured search fromP toP page pageSize db).map
            (fun ev => (ev, false)))) := by
  refine ⟨?_, ?_, ?_, ?_, ?_, ?_, ?_⟩
  · simp [handleListSetTimes]
  · simp [handleListSetTimes, hevent]
  · simp [handleListSetTimes, hevent, hstages]
  · simp [handleListSetTimes, hevent, hstages]
  · intro entry hentry t ht
    unfold buildSchedule at hentry
    obtain ⟨s, _, rfl⟩ := List.mem_map.mp hentry
    simp only [List.mem_filter] at ht
    obtain ⟨x, _, rfl⟩ := List.mem_map.mp ht.1
    simp
  · simp [handleListEvents]
  · simp [handleListEvents]

/-- Concrete instance of the amended C6 statement: a failing stages
query is surfaced as a 500 with the store error message. -/
theorem c6_error_propagation_amended_witness :
    handleListSetTimes (some "u") (some 1) none (some ⟨"boom", ""⟩) none none
        ⟨[⟨1, "ev", "2024-01-01", "2024-01-02", none, none, none, none, none, none, none⟩],
         [⟨1, 1, "Main"⟩], [], [], [⟨1, 1, 1, "18:00", "19:00", none⟩], [], [], [], []⟩ =
      .serverError "boom" :=
  (c6_error_propagation_amended "u" 1 ⟨"boom", ""⟩
      ⟨[⟨1, "ev", "2024-01-01", "2024-01-02", none, none, none, none, none, none, none⟩],
       [⟨1, 1, "Main"⟩], [], [], [⟨1, 1, 1, "18:00", "19:00", none⟩], [], [], [], []⟩
      false none none none 1 10 (by decide) (by decide)).2.1
